import Mathlib

/-!
Verification development for the asset-inventory backend
(`backend/server.py`): a shallow embedding of the data model and of the
handlers `create_transaction`, `get_low_stock_alerts`, `create_stock_take`,
`confirm_delivery_and_update_inventory` and `scan_supplier_products`,
followed by theorems settling the specification's claims.

Modelling conventions:
- MongoDB collections become Lean lists of records; `find_one({"id": x})`
  is `List.find?` on the id field and `update_one` rewrites the first
  matching record.
- `datetime.utcnow()` and `uuid.uuid4()` are nondeterministic inputs, so
  every handler takes the current time (`now : Nat`) and any freshly
  generated ids as explicit parameters.
- Python integers are `Int`; optional JSON fields are `Option`.
  A stored quantity is `Option Int` because a raw document write can
  persist a null there (the pydantic models do not validate assignments).
- Prices (Python floats used only as exact decimal literals) are `Rat`.
- A handler returns `Except ApiError α × DB × List WriteOp`: the response
  or raised error, the database after the handler finished or raised, and
  the ordered list of write operations it performed.  A raise aborts the
  handler but keeps the writes already performed, exactly as in the
  source, where each `await db....` call has already committed.
-/

namespace Inventory

inductive ItemType
  | material
  | tool
deriving DecidableEq, Repr

inductive ToolStatus
  | available
  | in_use
  | maintenance
  | out_of_order
deriving DecidableEq, Repr

inductive ToolCondition
  | excellent
  | good
  | fair
  | poor
deriving DecidableEq, Repr

inductive TransactionType
  | take
  | restock
  | check_out
  | check_in
  | stock_take
deriving DecidableEq, Repr

inductive DeliveryStatus
  | pending
  | in_transit
  | delivered
  | partially_received
  | damaged
  | completed
deriving DecidableEq, Repr

/-- Errors a handler can surface: an `HTTPException(status, detail)` or an
unhandled Python runtime error (e.g. `TypeError` from `int < None`,
`ValidationError` from parsing a malformed stored document). -/
inductive ApiError
  | http (status : Nat) (detail : String)
  | pyError (kind : String)
deriving DecidableEq, Repr

/-- The write operations a handler issues against the store, in order. -/
inductive WriteOp
  | updateMaterial (id : String)
  | updateTool (id : String)
  | updateSupplier (id : String)
  | updateDelivery (id : String)
  | insertMaterial (id : String)
  | insertTool (id : String)
  | insertTransaction (id : String)
  | insertStockTake (id : String)
deriving DecidableEq, Repr

/-- Embedded supplier snapshot `{"id": ..., "name": ...}` stored on a
Material by the delivery fan-out. -/
structure SupplierRef where
  id : String
  name : String
deriving DecidableEq, Repr

structure ServiceRecord where
  date : Nat
  description : String
  performed_by : String
  next_service_due : Option Nat := none
  cost : Option Rat := none
deriving DecidableEq, Repr

/-- A product record as stored on `Supplier.products` by the scan endpoint
(the enhanced / fallback dict shape of `scan_supplier_products`). -/
structure EnhancedProduct where
  name : String
  product_code : String
  category : String
  price : Rat
  description : String
  availability : String := "in_stock"
  supplier_id : String
deriving DecidableEq, Repr

structure Supplier where
  id : String
  name : String
  type : String := "general"
  website : Option String := none
  contact_person : Option String := none
  phone : Option String := none
  email : Option String := none
  address : Option String := none
  account_number : Option String := none
  delivery_info : Option String := none
  products : List EnhancedProduct := []
  created_at : Nat := 0
  updated_at : Nat := 0
deriving DecidableEq, Repr

/-- A stored Material document.  `name` and `quantity` are `Option` because
raw inserts (delivery fan-out) and raw `$set` writes (stock-take with a null
count) can store documents the pydantic `Material` model would reject. -/
structure Material where
  id : String
  name : Option String
  description : Option String := none
  category : Option String := none
  quantity : Option Int
  unit : String := "pieces"
  min_stock : Int := 0
  location : Option String := none
  supplier : Option SupplierRef := none
  supplier_product_code : Option String := none
  photo : Option String := none
  qr_code : Option String := none
  created_at : Nat := 0
  updated_at : Nat := 0
deriving DecidableEq, Repr

structure Tool where
  id : String
  name : String
  description : Option String := none
  category : Option String := none
  status : ToolStatus := .available
  condition : ToolCondition := .good
  location : Option String := none
  current_user : Option String := none
  service_records : List ServiceRecord := []
  next_service_due : Option Nat := none
  supplier : Option SupplierRef := none
  supplier_product_code : Option String := none
  photo : Option String := none
  qr_code : Option String := none
  created_at : Nat := 0
  updated_at : Nat := 0
deriving DecidableEq, Repr

structure Transaction where
  id : String
  item_id : String
  item_type : ItemType
  transaction_type : TransactionType
  user_id : String
  user_name : String
  quantity : Option Int := none
  condition : Option ToolCondition := none
  notes : Option String := none
  timestamp : Nat := 0
deriving DecidableEq, Repr

/-- Request body of `POST /transactions`. -/
structure TransactionCreate where
  item_id : String
  item_type : ItemType
  transaction_type : TransactionType
  user_id : String
  user_name : String
  quantity : Option Int := none
  condition : Option ToolCondition := none
  notes : Option String := none
deriving DecidableEq, Repr

structure StockTakeEntry where
  item_id : String
  item_type : ItemType
  counted_quantity : Int
  condition : Option ToolCondition := none
  notes : Option String := none
deriving DecidableEq, Repr

structure StockTakeCreate where
  user_id : String
  user_name : String
  item_type : ItemType
  entries : List StockTakeEntry
deriving DecidableEq, Repr

structure StockTake where
  id : String
  user_id : String
  user_name : String
  item_type : ItemType
  entries : List StockTakeEntry
  timestamp : Nat := 0
  completed : Bool := false
deriving DecidableEq, Repr

structure Delivery where
  id : String
  supplier_id : String
  supplier_name : String
  status : DeliveryStatus := .pending
  expected_date : Option Nat := none
  actual_delivery_date : Option Nat := none
  user_confirmed : Bool := false
  total_items_expected : Int := 0
  total_items_received : Int := 0
  created_by : String := ""
  created_at : Nat := 0
  updated_at : Nat := 0
deriving DecidableEq, Repr

/-- One entry of `confirmation_data["confirmed_items"]`; each field mirrors
an `item.get(...)` access (absent key modelled as `none`). -/
structure ConfirmedItem where
  item_name : Option String := none
  quantity_received : Int := 0
  matched_inventory_id : Option String := none
  is_new_item : Bool := false
  item_type : Option String := none
  notes : Option String := none
  category : Option String := none
  unit : Option String := none
  min_stock : Option Int := none
  location : Option String := none
  item_code : Option String := none
deriving DecidableEq, Repr

structure ConfirmationData where
  confirmed_items : List ConfirmedItem := []
  user_id : Option String := none
  user_name : Option String := none
deriving DecidableEq, Repr

/-- The persisted collections the embedded handlers touch. -/
structure DB where
  materials : List Material := []
  tools : List Tool := []
  transactions : List Transaction := []
  suppliers : List Supplier := []
  deliveries : List Delivery := []
  stock_takes : List StockTake := []
deriving DecidableEq, Repr

/-- `update_one({"id": ...}, {"$set": ...})`: rewrite the first record
matching `p` with `f`, leave the rest alone. -/
def updateFirst {α : Type} (p : α → Bool) (f : α → α) : List α → List α
  | [] => []
  | x :: xs => if p x then f x :: xs else x :: updateFirst p f xs

def findMaterial (db : DB) (id : String) : Option Material :=
  db.materials.find? (fun m => m.id == id)

def findTool (db : DB) (id : String) : Option Tool :=
  db.tools.find? (fun t => t.id == id)

def findSupplier (db : DB) (id : String) : Option Supplier :=
  db.suppliers.find? (fun s => s.id == id)

def findDelivery (db : DB) (id : String) : Option Delivery :=
  db.deliveries.find? (fun d => d.id == id)

/-- Python truthiness of an optional string (`None` and `""` are falsy). -/
def pyTruthyStr : Option String → Bool
  | none => false
  | some s => !s.isEmpty

/-- `Material(**material_doc)`: pydantic re-validation of a stored document.
`name: str` and `quantity: int` are required and non-null; a document
violating that raises `ValidationError` (an unhandled 500). -/
def parseMaterial (m : Material) : Except ApiError Material :=
  if m.name.isSome && m.quantity.isSome then .ok m
  else .error (.pyError "ValidationError")

/-- The `Transaction(**transaction_data.dict())` built at the top of
`create_transaction`: request fields plus a fresh id and timestamp. -/
def mkTransaction (req : TransactionCreate) (tid : String) (now : Nat) : Transaction :=
  { id := tid
    item_id := req.item_id
    item_type := req.item_type
    transaction_type := req.transaction_type
    user_id := req.user_id
    user_name := req.user_name
    quantity := req.quantity
    condition := req.condition
    notes := req.notes
    timestamp := now }

/-- The material branch of `create_transaction` (server.py 502-509): the
mutation applied to the parsed material, or the raised error.
`material.quantity < transaction.quantity` and `+=` raise `TypeError` when
either side is `None`; `stock_take` assigns `transaction.quantity` verbatim
(pydantic does not validate the assignment, so it can store a null).
A transaction type outside the if/elif chain falls through unchanged. -/
def applyMaterialTxn (req : TransactionCreate) (m : Material) : Except ApiError Material :=
  match req.transaction_type with
  | .take =>
    match m.quantity, req.quantity with
    | some mq, some q =>
      if mq < q then .error (.http 400 "Insufficient quantity")
      else .ok { m with quantity := some (mq - q) }
    | _, _ => .error (.pyError "TypeError")
  | .restock =>
    match m.quantity, req.quantity with
    | some mq, some q => .ok { m with quantity := some (mq + q) }
    | _, _ => .error (.pyError "TypeError")
  | .stock_take => .ok { m with quantity := req.quantity }
  | _ => .ok m

/-- The tool branch of `create_transaction` (server.py 523-530).
`if transaction.condition:` is truthy exactly when a condition is supplied
(every enum value is a non-empty string). -/
def applyToolTxn (req : TransactionCreate) (t : Tool) : Tool :=
  match req.transaction_type with
  | .check_out => { t with status := .in_use, current_user := some req.user_name }
  | .check_in =>
    let t1 : Tool := { t with status := .available, current_user := none }
    match req.condition with
    | some c => { t1 with condition := c }
    | none => t1
  | _ => t

/-- `POST /transactions` (server.py 491-539).  `tid` is the generated
transaction uuid, `now` the current time. -/
def create_transaction (req : TransactionCreate) (tid : String) (now : Nat)
    (db : DB) : Except ApiError Transaction × DB × List WriteOp :=
  let txn := mkTransaction req tid now
  match req.item_type with
  | .material =>
    match findMaterial db req.item_id with
    | none => (.error (.http 404 "Material not found"), db, [])
    | some mdoc =>
      match parseMaterial mdoc with
      | .error e => (.error e, db, [])
      | .ok m =>
        match applyMaterialTxn req m with
        | .error e => (.error e, db, [])
        | .ok m1 =>
          let m2 : Material := { m1 with updated_at := now }
          let db1 : DB :=
            { db with materials := updateFirst (fun x => x.id == req.item_id) (fun _ => m2) db.materials }
          let db2 : DB := { db1 with transactions := db1.transactions ++ [txn] }
          (.ok txn, db2, [.updateMaterial req.item_id, .insertTransaction tid])
  | .tool =>
    match findTool db req.item_id with
    | none => (.error (.http 404 "Tool not found"), db, [])
    | some t =>
      let t1 := applyToolTxn req t
      let t2 : Tool := { t1 with updated_at := now }
      let db1 : DB :=
        { db with tools := updateFirst (fun x => x.id == req.item_id) (fun _ => t2) db.tools }
      let db2 : DB := { db1 with transactions := db1.transactions ++ [txn] }
      (.ok txn, db2, [.updateTool req.item_id, .insertTransaction tid])

structure LowStockResponse where
  count : Nat
  materials : List Material
deriving DecidableEq, Repr

/-- MongoDB `$lte` under BSON ordering: a null quantity sorts before every
number, so `null <= min_stock` holds. -/
def bsonLe (q : Option Int) (m : Int) : Bool :=
  match q with
  | none => true
  | some v => v ≤ m

/-- The response's `[Material(**material) for material in low_stock_materials]`
comprehension: re-validate each document left to right, raising the first
`ValidationError`. -/
def parseMaterials : List Material → Except ApiError (List Material)
  | [] => .ok []
  | m :: ms =>
    match parseMaterial m with
    | .error e => .error e
    | .ok m1 =>
      match parseMaterials ms with
      | .error e => .error e
      | .ok ms1 => .ok (m1 :: ms1)

/-- `GET /alerts/low-stock` (server.py 547-557): the materials where
`quantity <= min_stock`, capped by `.to_list(1000)`, each re-validated by
`Material(**material)` in the response (an invalid stored document raises);
no write performed either way. -/
def get_low_stock_alerts (db : DB) : Except ApiError LowStockResponse × DB × List WriteOp :=
  let low := (db.materials.filter (fun m => bsonLe m.quantity m.min_stock)).take 1000
  match parseMaterials low with
  | .error e => (.error e, db, [])
  | .ok ms => (.ok { count := low.length, materials := ms }, db, [])

/-- One entry of the stock-take batch (server.py 565-597): overwrite the
material's quantity (or refresh the tool, updating condition when supplied),
then append a `stock_take` Transaction.  `tid` is that transaction's uuid. -/
def apply_stock_take_entry (e : StockTakeEntry) (user_id user_name : String)
    (tid : String) (now : Nat) (db : DB) : DB × List WriteOp :=
  let db1 : DB :=
    match e.item_type with
    | .material =>
      { db with materials :=
          (updateFirst (fun m => m.id == e.item_id)
            (fun m => { m with quantity := some e.counted_quantity, updated_at := now })
            db.materials) }
    | .tool =>
      { db with tools :=
          (updateFirst (fun t => t.id == e.item_id)
            (fun t =>
              match e.condition with
              | some c => { t with condition := c, updated_at := now }
              | none => { t with updated_at := now })
            db.tools) }
  let w1 : WriteOp :=
    match e.item_type with
    | .material => .updateMaterial e.item_id
    | .tool => .updateTool e.item_id
  let txn : Transaction :=
    { id := tid
      item_id := e.item_id
      item_type := e.item_type
      transaction_type := .stock_take
      user_id := user_id
      user_name := user_name
      quantity := if e.item_type == .material then some e.counted_quantity else none
      condition := e.condition
      notes := e.notes
      timestamp := now }
  ({ db1 with transactions := db1.transactions ++ [txn] }, [w1, .insertTransaction tid])

/-- `POST /stock-takes` (server.py 560-601): process the entries in order,
then insert the completed StockTake.  `sid` is the StockTake's uuid and
`tids` the per-entry transaction uuids (indexed by position). -/
def create_stock_take (req : StockTakeCreate) (sid : String) (tids : List String)
    (now : Nat) (db : DB) : Except ApiError StockTake × DB × List WriteOp :=
  let step := fun (acc : DB × List WriteOp × Nat) (e : StockTakeEntry) =>
    let r := apply_stock_take_entry e req.user_id req.user_name
      (tids.getD acc.2.2 "") now acc.1
    (r.1, acc.2.1 ++ r.2, acc.2.2 + 1)
  let res := req.entries.foldl step (db, [], 0)
  let st : StockTake :=
    { id := sid
      user_id := req.user_id
      user_name := req.user_name
      item_type := req.item_type
      entries := req.entries
      timestamp := now
      completed := true }
  let db1 : DB := { res.1 with stock_takes := res.1.stock_takes ++ [st] }
  (.ok st, db1, res.2.1 ++ [.insertStockTake sid])

/-- One confirmed item of the delivery-confirmation loop
(server.py 1250-1288).  `sup_id`/`sup_name` come from the delivery document,
`newId` is the uuid generated if a new material is inserted.  A matched
material whose stored quantity is null makes
`material_doc["quantity"] + quantity_received` raise `TypeError`, which the
handler's blanket `except` re-raises as a 500. -/
def processConfirmedItem (sup_id sup_name : String) (newId : String) (now : Nat)
    (item : ConfirmedItem) (db : DB) : Except ApiError (DB × List WriteOp × Nat) :=
  if item.quantity_received ≤ 0 then .ok (db, [], 0)
  else if item.is_new_item then
    if item.item_type == some "material" then
      let nm : Material :=
        { id := newId
          name := item.item_name
          description := some (item.notes.getD "")
          category := some (item.category.getD "general")
          quantity := some item.quantity_received
          unit := item.unit.getD "pieces"
          min_stock := item.min_stock.getD 5
          location := some (item.location.getD "Warehouse")
          supplier := some { id := sup_id, name := sup_name }
          supplier_product_code := item.item_code
          created_at := now
          updated_at := now }
      .ok ({ db with materials := db.materials ++ [nm] }, [.insertMaterial newId], 1)
    else .ok (db, [], 0)
  else if pyTruthyStr item.matched_inventory_id then
    match findMaterial db (item.matched_inventory_id.getD "") with
    | none => .ok (db, [], 0)
    | some mdoc =>
      match mdoc.quantity with
      | none => .error (.http 500 "Failed to confirm delivery: TypeError")
      | some mq =>
        let db1 : DB :=
          { db with materials :=
              (updateFirst (fun m => m.id == item.matched_inventory_id.getD "")
                (fun m => { m with quantity := some (mq + item.quantity_received), updated_at := now })
                db.materials) }
        .ok (db1, [.updateMaterial (item.matched_inventory_id.getD "")], 1)
  else .ok (db, [], 0)

/-- The fan-out loop over `confirmed_items`, threading the database, the
writes performed so far and the length of `updated_materials`.  `newIds`
supplies the uuid for the i-th item, should it insert a new material.
A raise aborts the loop but keeps earlier writes. -/
def processConfirmedItems (sup_id sup_name : String) (newIds : List String) (now : Nat) :
    List ConfirmedItem → Nat → DB → (Except ApiError Unit × DB × List WriteOp × Nat)
  | [], _, db => (.ok (), db, [], 0)
  | item :: rest, i, db =>
    match processConfirmedItem sup_id sup_name (newIds.getD i "") now item db with
    | .error e => (.error e, db, [], 0)
    | .ok (db1, ws, n) =>
      let r := processConfirmedItems sup_id sup_name newIds now rest (i + 1) db1
      (r.1, r.2.1, ws ++ r.2.2.1, n + r.2.2.2)

structure ConfirmResponse where
  success : Bool := true
  materials_updated : Nat
  tools_updated : Nat
  total_items_processed : Nat
deriving DecidableEq, Repr

/-- `POST /deliveries/{id}/confirm-and-update-inventory`
(server.py 1234-1316): process each confirmed item, then unconditionally
mark the delivery completed, stamp `actual_delivery_date` and store the sum
of all `quantity_received` values. -/
def confirm_delivery_and_update_inventory (delivery_id : String)
    (cd : ConfirmationData) (newIds : List String) (now : Nat) (db : DB) :
    Except ApiError ConfirmResponse × DB × List WriteOp :=
  match findDelivery db delivery_id with
  | none =>
    -- the handler's own `except Exception` catches its 404 and re-raises a 500
    (.error (.http 500 "Failed to confirm delivery: 404: Delivery not found"), db, [])
  | some deliv =>
    let r := processConfirmedItems deliv.supplier_id deliv.supplier_name newIds now
      cd.confirmed_items 0 db
    match r.1 with
    | .error e => (.error e, r.2.1, r.2.2.1)
    | .ok _ =>
      let total := cd.confirmed_items.foldl (fun acc item => acc + item.quantity_received) 0
      let db1 : DB :=
        { r.2.1 with deliveries :=
            (updateFirst (fun d => d.id == delivery_id)
              (fun d => { d with
                status := .completed
                user_confirmed := true
                actual_delivery_date := some now
                total_items_received := total
                updated_at := now })
              r.2.1.deliveries) }
      (.ok { materials_updated := r.2.2.2
             tools_updated := 0
             total_items_processed := cd.confirmed_items.length },
        db1, r.2.2.1 ++ [.updateDelivery delivery_id])

/-- Python `str.title()`: the first letter of every alphabetic run is
upper-cased, the rest lower-cased. -/
def pyTitle (s : String) : String :=
  String.mk (s.toList.foldl
    (fun (acc : List Char × Bool) c =>
      let c2 := if c.isAlpha then (if acc.2 then c.toLower else c.toUpper) else c
      (acc.1 ++ [c2], c.isAlpha))
    ([], false)).1

/-- Python `f"{n:03d}"` for a natural number. -/
def pad3 (n : Nat) : String :=
  if n < 10 then "00" ++ toString n
  else if n < 100 then "0" ++ toString n
  else toString n

/-- A product dict parsed from the model's JSON answer; every field is read
with `product.get(key, default)`. -/
structure ParsedProduct where
  name : Option String := none
  product_code : Option String := none
  category : Option String := none
  price : Option Rat := none
  description : Option String := none
deriving DecidableEq, Repr

/-- The outcome of the external model call in `scan_supplier_products`:
the call raised (network error, non-list JSON, ... — anything the outer
`except Exception` catches), the answer was not JSON (the inner
`json.JSONDecodeError` handler raises an HTTPException that the outer
`except Exception` also catches), or a JSON list of product dicts. -/
inductive LlmOutcome
  | callFailed
  | malformedJson
  | parsed (products : List ParsedProduct)
deriving DecidableEq, Repr

/-- Enhancement of the i-th parsed product (server.py 873-883), with the
source's defaults for each missing field. -/
def enhanceProduct (supplier_name supplier_id : String) (i : Nat)
    (p : ParsedProduct) : EnhancedProduct :=
  { name := p.name.getD ("Product " ++ toString (i + 1))
    product_code := p.product_code.getD (supplier_name.toUpper.take 3 ++ "-" ++ pad3 (i + 1))
    category := p.category.getD "general"
    price := p.price.getD 0
    description := p.description.getD "Product description"
    availability := "in_stock"
    supplier_id := supplier_id }

/-- The deterministic templated fallback products (server.py 895-941),
synthesized from the supplier's name and type. -/
def fallbackProducts (supplier : Supplier) (supplier_id : String) : List EnhancedProduct :=
  let pre := supplier.name.toUpper.take 3
  let t := pyTitle supplier.type
  [ { name := "Professional " ++ t ++ " Equipment"
      product_code := pre ++ "-PRO-001"
      category := supplier.type
      price := 89.99
      description := "High-quality " ++ supplier.type ++ " equipment from " ++ supplier.name
      availability := "in_stock"
      supplier_id := supplier_id },
    { name := "Standard " ++ t ++ " Kit"
      product_code := pre ++ "-STD-002"
      category := supplier.type
      price := 45.50
      description := "Essential " ++ supplier.type ++ " kit for maintenance teams"
      availability := "in_stock"
      supplier_id := supplier_id },
    { name := "Heavy Duty " ++ t ++ " Set"
      product_code := pre ++ "-HD-003"
      category := supplier.type
      price := 156.00
      description := "Industrial grade " ++ supplier.type ++ " equipment set"
      availability := "in_stock"
      supplier_id := supplier_id },
    { name := "Emergency " ++ t ++ " Pack"
      product_code := pre ++ "-EMG-004"
      category := supplier.type
      price := 67.75
      description := "Emergency response " ++ supplier.type ++ " pack"
      availability := "in_stock"
      supplier_id := supplier_id },
    { name := "Maintenance " ++ t ++ " Bundle"
      product_code := pre ++ "-MNT-005"
      category := supplier.type
      price := 124.99
      description := "Complete maintenance " ++ supplier.type ++ " bundle"
      availability := "in_stock"
      supplier_id := supplier_id } ]

structure ScanResponse where
  success : Bool := true
  supplier_id : String
  products_found : Nat
  products : List EnhancedProduct
deriving DecidableEq, Repr

/-- The `enhanced_products` list the scan stores (server.py 854-941): the
first five parsed products, enhanced, on success; the templated fallback
list when the model call raised or its answer was not JSON. -/
def scannedProducts (supplier : Supplier) (supplier_id : String)
    (outcome : LlmOutcome) : List EnhancedProduct :=
  match outcome with
  | .parsed ps => (ps.take 5).mapIdx (fun i p => enhanceProduct supplier.name supplier_id i p)
  | _ => fallbackProducts supplier supplier_id

/-- `POST /suppliers/{id}/scan-products` (server.py 729-970).
`scan_website` is `scan_data.get("website", supplier.website)`'s explicit
part; `api_key` is `os.getenv("EMERGENT_LLM_KEY")`.  A missing/empty
website is a 400, a missing/empty key a 500 (re-raised by the
`except HTTPException` arm, so nothing is stored).  The web-scrape result
only changes the prompt text, never the stored outcome, so it is not a
parameter.  On `parsed ps` the first five products are enhanced and stored;
on any caught failure the five fallback products are stored; either way the
supplier's product list is replaced wholesale. -/
def scan_supplier_products (supplier_id : String) (scan_website : Option String)
    (api_key : Option String) (outcome : LlmOutcome) (now : Nat) (db : DB) :
    Except ApiError ScanResponse × DB × List WriteOp :=
  match findSupplier db supplier_id with
  | none => (.error (.http 404 "Supplier not found"), db, [])
  | some supplier =>
    let website := match scan_website with
      | some w => some w
      | none => supplier.website
    if !pyTruthyStr website then
      (.error (.http 400 "Website URL is required for product scanning"), db, [])
    else if !pyTruthyStr api_key then
      (.error (.http 500 "LLM API key not configured"), db, [])
    else
      let enhanced_products := scannedProducts supplier supplier_id outcome
      let db1 : DB :=
        { db with suppliers :=
            (updateFirst (fun s => s.id == supplier_id)
              (fun s => { s with products := enhanced_products, updated_at := now })
              db.suppliers) }
      (.ok { supplier_id := supplier_id
             products_found := enhanced_products.length
             products := enhanced_products },
        db1, [.updateSupplier supplier_id])

/-! ## Helper lemmas -/

theorem updateFirst_find? {α : Type} (p : α → Bool) (f : α → α) (xs : List α)
    (hf : ∀ x, p x = true → p (f x) = true) :
    ((updateFirst p f xs).find? p) = (xs.find? p).map f := by
  induction xs with
  | nil => simp [updateFirst]
  | cons x xs ih =>
    by_cases h : p x = true
    · rw [updateFirst, if_pos h, List.find?_cons_of_pos _ (hf x h),
        List.find?_cons_of_pos _ h]
      rfl
    · rw [updateFirst, if_neg h, List.find?_cons_of_neg _ (Bool.not_eq_true _ ▸ h),
        List.find?_cons_of_neg _ (Bool.not_eq_true _ ▸ h), ih]

/-- The i-th material written by `updateFirst` keeps all untouched records:
a record not matching `p` is unchanged. -/
theorem updateFirst_of_not_mem {α : Type} (p : α → Bool) (f : α → α) (xs : List α)
    (h : ∀ x ∈ xs, p x = false) : updateFirst p f xs = xs := by
  induction xs with
  | nil => rfl
  | cons x xs ih =>
    rw [updateFirst, if_neg (by simp [h x (List.mem_cons_self x xs)]), ih]
    intro y hy
    exact h y (List.mem_cons_of_mem x hy)

theorem applyMaterialTxn_id (req : TransactionCreate) (m m1 : Material)
    (h : applyMaterialTxn req m = .ok m1) : m1.id = m.id ∧ m1.name = m.name := by
  unfold applyMaterialTxn at h
  split at h
  · split at h
    · split at h
      · cases h
      · cases h
        exact ⟨rfl, rfl⟩
    · cases h
  · split at h
    · cases h
      exact ⟨rfl, rfl⟩
    · cases h
  · cases h
    exact ⟨rfl, rfl⟩
  · cases h
    exact ⟨rfl, rfl⟩

/-- Shape of a successful material transaction: the found material is
parsed, mutated, stamped with `updated_at := now` and persisted, then the
transaction is appended. -/
theorem create_transaction_material_ok (req : TransactionCreate) (tid : String)
    (now : Nat) (db : DB) (m m1 : Material)
    (htype : req.item_type = .material)
    (hfind : findMaterial db req.item_id = some m)
    (hparse : parseMaterial m = .ok m)
    (happly : applyMaterialTxn req m = .ok m1) :
    create_transaction req tid now db =
      (.ok (mkTransaction req tid now),
       { db with
          materials := (updateFirst (fun x => x.id == req.item_id)
            (fun _ => { m1 with updated_at := now }) db.materials)
          transactions := db.transactions ++ [mkTransaction req tid now] },
       [.updateMaterial req.item_id, .insertTransaction tid]) := by
  unfold create_transaction
  simp only [htype, hfind, hparse, happly]

/-- After a successful material transaction the item is still found, as the
persisted record. -/
theorem findMaterial_after (req : TransactionCreate) (tid : String) (now : Nat)
    (db : DB) (m m1 : Material)
    (hfind : findMaterial db req.item_id = some m)
    (hid : m1.id = m.id) :
    findMaterial
      { db with
          materials := (updateFirst (fun x => x.id == req.item_id)
            (fun _ => m1) db.materials)
          transactions := db.transactions ++ [mkTransaction req tid now] }
      req.item_id = some m1 := by
  unfold findMaterial at hfind ⊢
  have hpm : (m.id == req.item_id) = true := by
    simpa using List.find?_some hfind
  have hpm1 : (m1.id == req.item_id) = true := by rw [hid]; exact hpm
  show List.find? (fun x => x.id == req.item_id)
    (updateFirst (fun x => x.id == req.item_id) (fun _ => m1) db.materials) = some m1
  rw [updateFirst_find? (fun x => x.id == req.item_id) (fun _ => m1) db.materials
    (fun x _ => hpm1), hfind]
  rfl

/-! ## Claims -/

/-- C1: for every material and every take transaction of quantity `q`: if
`q <= ` the material's current quantity, the stored quantity after the
operation equals the prior quantity minus `q`; if `q > ` the current
quantity, the operation fails with InsufficientStock (HTTP 400) and the
database — hence the stored quantity and the transaction log — is
unchanged, with no write performed. -/
theorem take_transaction_spec (req : TransactionCreate) (tid : String) (now : Nat)
    (db : DB) (m : Material) (n q : Int)
    (htype : req.item_type = .material) (htt : req.transaction_type = .take)
    (hq : req.quantity = some q)
    (hfind : findMaterial db req.item_id = some m)
    (hname : m.name.isSome = true) (hqty : m.quantity = some n) :
    (q ≤ n →
      (create_transaction req tid now db).1 = .ok (mkTransaction req tid now) ∧
      ∃ m1, findMaterial (create_transaction req tid now db).2.1 req.item_id = some m1 ∧
        m1.quantity = some (n - q)) ∧
    (n < q →
      create_transaction req tid now db =
        (.error (.http 400 "Insufficient quantity"), db, [])) := by
  have hparse : parseMaterial m = .ok m := by
    unfold parseMaterial
    rw [hname, hqty]
    rfl
  constructor
  · intro hle
    have happly : applyMaterialTxn req m = .ok { m with quantity := some (n - q) } := by
      unfold applyMaterialTxn
      rw [htt]
      simp only [hqty, hq]
      rw [if_neg (not_lt.mpr hle)]
    have h := create_transaction_material_ok req tid now db m
      { m with quantity := some (n - q) } htype hfind hparse happly
    rw [h]
    refine ⟨rfl, ⟨{ m with quantity := some (n - q), updated_at := now }, ?_, rfl⟩⟩
    exact findMaterial_after req tid now db m
      { m with quantity := some (n - q), updated_at := now } hfind rfl
  · intro hlt
    have happly : applyMaterialTxn req m =
        .error (.http 400 "Insufficient quantity") := by
      unfold applyMaterialTxn
      rw [htt]
      simp only [hqty, hq]
      rw [if_pos hlt]
    unfold create_transaction
    simp only [htype, hfind, hparse, happly]

def wMat : Material := { id := "m1", name := some "Widget", quantity := some 10 }

def wDB : DB := { materials := [wMat] }

def wTakeReq : TransactionCreate :=
  { item_id := "m1", item_type := .material, transaction_type := .take,
    user_id := "lee_carter", user_name := "Lee Carter", quantity := some 3 }

/-- C1 witness: a concrete take of 3 from a stock of 10 succeeds leaving 7;
a take of 99 fails with the 400 error and leaves the database unchanged. -/
theorem take_transaction_spec_witness :
    ((create_transaction wTakeReq "t1" 5 wDB).1 = .ok (mkTransaction wTakeReq "t1" 5) ∧
      ∃ m1, findMaterial (create_transaction wTakeReq "t1" 5 wDB).2.1 "m1" = some m1 ∧
        m1.quantity = some (10 - 3)) ∧
    (create_transaction { wTakeReq with quantity := some 99 } "t1" 5 wDB =
      (.error (.http 400 "Insufficient quantity"), wDB, [])) :=
  ⟨(take_transaction_spec wTakeReq "t1" 5 wDB wMat 10 3 rfl rfl rfl (by decide)
      (by decide) rfl).1 (by decide),
   (take_transaction_spec { wTakeReq with quantity := some 99 } "t1" 5 wDB wMat 10 99
      rfl rfl rfl (by decide) (by decide) rfl).2 (by decide)⟩

/-- C2: a transaction whose `item_id` does not resolve to a record of the
stated `item_type` fails with NotFound (HTTP 404) before any mutation: the
database is returned unchanged (so no Material, Tool or Transaction record
is touched) and no write is performed. -/
theorem not_found_no_side_effects (req : TransactionCreate) (tid : String)
    (now : Nat) (db : DB)
    (h : (req.item_type = .material ∧ findMaterial db req.item_id = none) ∨
         (req.item_type = .tool ∧ findTool db req.item_id = none)) :
    ∃ d, create_transaction req tid now db = (.error (.http 404 d), db, []) := by
  rcases h with ⟨ht, hf⟩ | ⟨ht, hf⟩
  · exact ⟨"Material not found", by unfold create_transaction; simp only [ht, hf]⟩
  · exact ⟨"Tool not found", by unfold create_transaction; simp only [ht, hf]⟩

/-- C2 witness: against a database holding only material `"m1"`, a material
transaction on the unknown id `"ghost"` and a tool transaction on `"m1"`
(an id of the wrong type) both 404 without touching the database. -/
theorem not_found_no_side_effects_witness :
    (∃ d, create_transaction { wTakeReq with item_id := "ghost" } "t1" 5 wDB =
      (.error (.http 404 d), wDB, [])) ∧
    (∃ d, create_transaction
        { wTakeReq with item_type := .tool, transaction_type := .check_out } "t1" 5 wDB =
      (.error (.http 404 d), wDB, [])) :=
  ⟨not_found_no_side_effects { wTakeReq with item_id := "ghost" } "t1" 5 wDB
      (.inl ⟨rfl, by decide⟩),
   not_found_no_side_effects
      { wTakeReq with item_type := .tool, transaction_type := .check_out } "t1" 5 wDB
      (.inr ⟨rfl, by decide⟩)⟩

/-- C3: every successful `create_transaction` appends exactly one
Transaction record, whose `item_id`, `transaction_type`, `quantity` and
`condition` match the request; the target record is persisted with a
refreshed `updated_at` and that update is written before the Transaction
record is inserted (the ordered write list is `[update…, insertTransaction]`). -/
theorem transaction_log_spec (req : TransactionCreate) (tid : String) (now : Nat)
    (db : DB) (txn : Transaction) (db1 : DB) (ws : List WriteOp)
    (h : create_transaction req tid now db = (.ok txn, db1, ws)) :
    db1.transactions = db.transactions ++ [txn] ∧
    txn.item_id = req.item_id ∧
    txn.transaction_type = req.transaction_type ∧
    txn.quantity = req.quantity ∧
    txn.condition = req.condition ∧
    ((req.item_type = .material ∧
        ws = [.updateMaterial req.item_id, .insertTransaction txn.id] ∧
        ∃ m1, findMaterial db1 req.item_id = some m1 ∧ m1.updated_at = now) ∨
     (req.item_type = .tool ∧
        ws = [.updateTool req.item_id, .insertTransaction txn.id] ∧
        ∃ t1, findTool db1 req.item_id = some t1 ∧ t1.updated_at = now)) := by
  unfold create_transaction at h
  split at h <;> rename_i hT
  · split at h
    · exact absurd (congrArg Prod.fst h) (by simp)
    · rename_i mdoc hfind
      split at h
      · exact absurd (congrArg Prod.fst h) (by simp)
      · rename_i m hp
        split at h
        · exact absurd (congrArg Prod.fst h) (by simp)
        · rename_i m1 ha
          have h1 := congrArg Prod.fst h
          have h2 := congrArg (fun x => x.2.1) h
          have h3 := congrArg (fun x => x.2.2) h
          simp only [] at h1 h2 h3
          injection h1 with h1
          subst h1
          subst h2
          subst h3
          have hpm : mdoc = m := by
            unfold parseMaterial at hp
            split at hp
            · cases hp
              rfl
            · cases hp
          subst hpm
          have hida : m1.id = mdoc.id := (applyMaterialTxn_id req mdoc m1 ha).1
          refine ⟨rfl, rfl, rfl, rfl, rfl, .inl ⟨hT, rfl, ?_⟩⟩
          exact ⟨{ m1 with updated_at := now },
            findMaterial_after req tid now db mdoc { m1 with updated_at := now } hfind hida,
            rfl⟩
  · split at h
    · exact absurd (congrArg Prod.fst h) (by simp)
    · rename_i t hfind
      have h1 := congrArg Prod.fst h
      have h2 := congrArg (fun x => x.2.1) h
      have h3 := congrArg (fun x => x.2.2) h
      simp only [] at h1 h2 h3
      injection h1 with h1
      subst h1
      subst h2
      subst h3
      have hpt : (t.id == req.item_id) = true := by
        have := List.find?_some hfind
        simpa [findTool] using this
      have hpt1 : (({ applyToolTxn req t with updated_at := now } : Tool).id == req.item_id)
          = true := by
        have hid : (applyToolTxn req t).id = t.id := by
          unfold applyToolTxn
          split
          · rfl
          · split <;> rfl
          · rfl
        show ((applyToolTxn req t).id == req.item_id) = true
        rw [hid]
        exact hpt
      refine ⟨rfl, rfl, rfl, rfl, rfl, .inr ⟨hT, rfl, ?_⟩⟩
      refine ⟨{ applyToolTxn req t with updated_at := now }, ?_, rfl⟩
      unfold findTool at hfind ⊢
      show List.find? (fun x => x.id == req.item_id)
        (updateFirst (fun x => x.id == req.item_id)
          (fun _ => { applyToolTxn req t with updated_at := now }) db.tools) = some _
      rw [updateFirst_find? (fun x => x.id == req.item_id)
        (fun _ => { applyToolTxn req t with updated_at := now }) db.tools
        (fun x _ => hpt1), hfind]
      rfl

/-- C3 witness: the concrete take of 3 from `wDB` appends exactly the one
matching Transaction, persisting the material update first. -/
theorem transaction_log_spec_witness :
    (create_transaction wTakeReq "t1" 5 wDB).2.1.transactions =
      wDB.transactions ++ [mkTransaction wTakeReq "t1" 5] ∧
    (mkTransaction wTakeReq "t1" 5).item_id = wTakeReq.item_id ∧
    (mkTransaction wTakeReq "t1" 5).transaction_type = wTakeReq.transaction_type ∧
    (mkTransaction wTakeReq "t1" 5).quantity = wTakeReq.quantity ∧
    (mkTransaction wTakeReq "t1" 5).condition = wTakeReq.condition ∧
    ((wTakeReq.item_type = .material ∧
        (create_transaction wTakeReq "t1" 5 wDB).2.2 =
          [.updateMaterial wTakeReq.item_id, .insertTransaction (mkTransaction wTakeReq "t1" 5).id] ∧
        ∃ m1, findMaterial (create_transaction wTakeReq "t1" 5 wDB).2.1 wTakeReq.item_id
            = some m1 ∧ m1.updated_at = 5) ∨
     (wTakeReq.item_type = .tool ∧
        (create_transaction wTakeReq "t1" 5 wDB).2.2 =
          [.updateTool wTakeReq.item_id, .insertTransaction (mkTransaction wTakeReq "t1" 5).id] ∧
        ∃ t1, findTool (create_transaction wTakeReq "t1" 5 wDB).2.1 wTakeReq.item_id
            = some t1 ∧ t1.updated_at = 5)) :=
  transaction_log_spec wTakeReq "t1" 5 wDB (mkTransaction wTakeReq "t1" 5)
    (create_transaction wTakeReq "t1" 5 wDB).2.1
    (create_transaction wTakeReq "t1" 5 wDB).2.2 rfl

/-- The stored quantity of the material with the given id. -/
def qtyOf (db : DB) (id : String) : Option Int :=
  (findMaterial db id).bind (fun m => m.quantity)

/-- Inversion of a successful material transaction. -/
theorem create_transaction_material_inv (req : TransactionCreate) (tid : String)
    (now : Nat) (db : DB) (txn : Transaction) (db1 : DB) (ws : List WriteOp)
    (htype : req.item_type = .material)
    (h : create_transaction req tid now db = (.ok txn, db1, ws)) :
    ∃ mdoc m1, findMaterial db req.item_id = some mdoc ∧
      applyMaterialTxn req mdoc = .ok m1 ∧
      txn = mkTransaction req tid now ∧
      db1 = { db with
        materials := (updateFirst (fun x => x.id == req.item_id)
          (fun _ => { m1 with updated_at := now }) db.materials)
        transactions := db.transactions ++ [txn] } ∧
      ws = [.updateMaterial req.item_id, .insertTransaction tid] := by
  unfold create_transaction at h
  split at h <;> rename_i hT
  · split at h
    · exact absurd (congrArg Prod.fst h) (by simp)
    · rename_i mdoc hfind
      split at h
      · exact absurd (congrArg Prod.fst h) (by simp)
      · rename_i m hp
        split at h
        · exact absurd (congrArg Prod.fst h) (by simp)
        · rename_i m1 ha
          have h1 := congrArg Prod.fst h
          have h2 := congrArg (fun x => x.2.1) h
          have h3 := congrArg (fun x => x.2.2) h
          simp only [] at h1 h2 h3
          injection h1 with h1
          subst h1
          subst h2
          subst h3
          have hpm : mdoc = m := by
            unfold parseMaterial at hp
            split at hp
            · cases hp
              rfl
            · cases hp
          subst hpm
          exact ⟨mdoc, m1, hfind, ha, rfl, rfl, rfl⟩
  · rw [hT] at htype
    cases htype

/-- Whatever succeeds on a material with a non-negative quantity and a
non-negative request quantity leaves a non-negative quantity. -/
theorem applyMaterialTxn_nonneg (req : TransactionCreate) (m m1 : Material)
    (n q : Int) (hqty : m.quantity = some n) (hn0 : 0 ≤ n)
    (hq : req.quantity = some q) (hq0 : 0 ≤ q)
    (ha : applyMaterialTxn req m = .ok m1) :
    ∃ n1, m1.quantity = some n1 ∧ 0 ≤ n1 := by
  unfold applyMaterialTxn at ha
  split at ha
  · split at ha
    · rename_i mq q2 hm hr
      rw [hqty] at hm
      injection hm with hm
      rw [hq] at hr
      injection hr with hr
      subst hm
      subst hr
      split at ha
      · cases ha
      · rename_i hlt
        cases ha
        exact ⟨n - q, rfl, by omega⟩
    · cases ha
  · split at ha
    · rename_i mq q2 hm hr
      rw [hqty] at hm
      injection hm with hm
      rw [hq] at hr
      injection hr with hr
      subst hm
      subst hr
      cases ha
      exact ⟨n + q, rfl, by omega⟩
    · cases ha
  · cases ha
    exact ⟨q, by rw [hq], hq0⟩
  · cases ha
    exact ⟨n, hqty, hn0⟩

/-- C4 counterexample: the public interface accepts negative integers
(`quantity: Optional[int]` has no lower bound), and a restock of `-1` on a
material holding 0 stores `-1 < 0`, refuting the invariant as claimed. -/
theorem material_nonneg_counterexample :
    qtyOf ({ materials := [{ id := "m4", name := some "Bolts", quantity := some 0 }] } : DB)
      "m4" = some 0 ∧
    qtyOf (create_transaction
        { item_id := "m4", item_type := .material, transaction_type := .restock,
          user_id := "u", user_name := "U", quantity := some (-1) } "t4" 7
        { materials := [{ id := "m4", name := some "Bolts", quantity := some 0 }] }).2.1
      "m4" = some (-1) ∧
    (-1 : Int) < 0 := by decide

/-- C4 amended: the invariant `quantity >= 0` is preserved by every
transaction-processor operation (take, restock, stock_take — and the
tool-typed fall-throughs) and by a material stock-take batch entry, provided
the request's quantity argument is non-negative (the code accepts negative
integers, which break it). -/
theorem material_nonneg_amended (req : TransactionCreate) (tid : String)
    (now : Nat) (db : DB) (m : Material) (n q : Int)
    (htype : req.item_type = .material)
    (hq : req.quantity = some q) (hq0 : 0 ≤ q)
    (hfind : findMaterial db req.item_id = some m)
    (hqty : m.quantity = some n) (hn0 : 0 ≤ n) :
    (∀ txn db1 ws, create_transaction req tid now db = (.ok txn, db1, ws) →
      ∃ n1, qtyOf db1 req.item_id = some n1 ∧ 0 ≤ n1) ∧
    (∀ e : StockTakeEntry, ∀ u un : String,
      e.item_type = .material → 0 ≤ e.counted_quantity → e.item_id = req.item_id →
      qtyOf (apply_stock_take_entry e u un tid now db).1 e.item_id =
          some e.counted_quantity ∧
        0 ≤ e.counted_quantity) := by
  constructor
  · intro txn db1 ws h
    obtain ⟨mdoc, m1, hfind', ha, htxn, hdb1, -⟩ :=
      create_transaction_material_inv req tid now db txn db1 ws htype h
    rw [hfind] at hfind'
    injection hfind' with e
    subst e
    obtain ⟨n1, hn1, h0⟩ := applyMaterialTxn_nonneg req m m1 n q hqty hn0 hq hq0 ha
    refine ⟨n1, ?_, h0⟩
    subst hdb1
    subst htxn
    have hfm := findMaterial_after req tid now db m { m1 with updated_at := now } hfind
      (applyMaterialTxn_id req m m1 ha).1
    unfold qtyOf
    rw [hfm]
    simpa using hn1
  · intro e u un hety hc0 hid
    have hpm : (m.id == e.item_id) = true := by
      rw [hid]
      simpa [findMaterial] using List.find?_some hfind
    refine ⟨?_, hc0⟩
    unfold qtyOf findMaterial apply_stock_take_entry
    rw [hety]
    simp only [hety]
    rw [updateFirst_find? (fun x => x.id == e.item_id)
      (fun x => { x with quantity := some e.counted_quantity, updated_at := now })
      db.materials (fun x hx => hx)]
    rw [hid]
    unfold findMaterial at hfind
    rw [hfind]
    rfl

def wRestockReq : TransactionCreate :=
  { wTakeReq with transaction_type := .restock, quantity := some 4 }

def wEntry : StockTakeEntry :=
  { item_id := "m1", item_type := .material, counted_quantity := 6 }

/-- C4 amended witness: a concrete restock of 4 onto a stock of 10 leaves a
non-negative quantity, and a batch entry counting 6 stores the non-negative 6. -/
theorem material_nonneg_amended_witness :
    (∃ n1, qtyOf (create_transaction wRestockReq "t4" 7 wDB).2.1 "m1" = some n1 ∧
      0 ≤ n1) ∧
    (qtyOf (apply_stock_take_entry wEntry "u" "U" "t4" 7 wDB).1 "m1" = some 6 ∧
      (0 : Int) ≤ 6) :=
  ⟨(material_nonneg_amended wRestockReq "t4" 7 wDB wMat 10 4 rfl rfl (by decide)
      (by decide) (by decide) (by decide)).1 _ _ _ rfl,
   (material_nonneg_amended wRestockReq "t4" 7 wDB wMat 10 4 rfl rfl (by decide)
      (by decide) (by decide) (by decide)).2 wEntry "u" "U" rfl (by decide) rfl⟩

/-- After a material stock-take batch entry the material holds exactly the
counted quantity. -/
theorem stock_take_entry_find (e : StockTakeEntry) (u un tid : String) (now : Nat)
    (db : DB) (m : Material) (hety : e.item_type = .material)
    (hfind : findMaterial db e.item_id = some m) :
    findMaterial (apply_stock_take_entry e u un tid now db).1 e.item_id =
      some { m with quantity := some e.counted_quantity, updated_at := now } := by
  unfold findMaterial apply_stock_take_entry
  simp only [hety]
  rw [updateFirst_find? (fun x => x.id == e.item_id)
      (fun x => { x with quantity := some e.counted_quantity, updated_at := now })
      db.materials (fun x hx => hx)]
  unfold findMaterial at hfind
  rw [hfind]
  rfl

/-- C5: a `stock_take` transaction with counted value `v` sets the stored
quantity to exactly `v` regardless of the prior quantity, and a second
identical stock_take yields the same final quantity (idempotence); the same
holds for a stock-take batch entry. -/
theorem stock_take_spec (req : TransactionCreate) (tid tid' : String)
    (now now' : Nat) (db : DB) (m : Material) (v : Int)
    (htype : req.item_type = .material) (htt : req.transaction_type = .stock_take)
    (hq : req.quantity = some v)
    (hfind : findMaterial db req.item_id = some m)
    (hname : m.name.isSome = true) (hqsome : m.quantity.isSome = true) :
    (qtyOf (create_transaction req tid now db).2.1 req.item_id = some v ∧
     qtyOf (create_transaction req tid' now'
       (create_transaction req tid now db).2.1).2.1 req.item_id = some v) ∧
    (∀ e : StockTakeEntry, ∀ u un : String,
      e.item_type = .material → e.item_id = req.item_id → e.counted_quantity = v →
      qtyOf (apply_stock_take_entry e u un tid now db).1 e.item_id = some v ∧
      qtyOf (apply_stock_take_entry e u un tid' now'
        (apply_stock_take_entry e u un tid now db).1).1 e.item_id = some v) := by
  have key : ∀ (t : String) (nw : Nat) (db0 : DB) (m0 : Material),
      findMaterial db0 req.item_id = some m0 → m0.name.isSome = true →
      m0.quantity.isSome = true →
      qtyOf (create_transaction req t nw db0).2.1 req.item_id = some v ∧
      findMaterial (create_transaction req t nw db0).2.1 req.item_id =
        some { m0 with quantity := some v, updated_at := nw } := by
    intro t nw db0 m0 hf hn hqs
    have hparse : parseMaterial m0 = .ok m0 := by
      unfold parseMaterial
      rw [hn, hqs]
      rfl
    have happly : applyMaterialTxn req m0 = .ok { m0 with quantity := some v } := by
      unfold applyMaterialTxn
      rw [htt, hq]
    have h := create_transaction_material_ok req t nw db0 m0
      { m0 with quantity := some v } htype hf hparse happly
    have hfm := findMaterial_after req t nw db0 m0
      { m0 with quantity := some v, updated_at := nw } hf rfl
    rw [h]
    refine ⟨?_, hfm⟩
    unfold qtyOf
    rw [hfm]
    rfl
  have first := key tid now db m hfind hname hqsome
  have second := key tid' now' (create_transaction req tid now db).2.1
    { m with quantity := some v, updated_at := now } first.2 hname rfl
  refine ⟨⟨first.1, second.1⟩, ?_⟩
  intro e u un hety hid hcv
  have hf1 : findMaterial db e.item_id = some m := by rw [hid]; exact hfind
  have one := stock_take_entry_find e u un tid now db m hety hf1
  have two := stock_take_entry_find e u un tid' now'
    (apply_stock_take_entry e u un tid now db).1
    { m with quantity := some e.counted_quantity, updated_at := now } hety one
  constructor
  · unfold qtyOf
    rw [one, hcv]
    rfl
  · unfold qtyOf
    rw [two, hcv]
    rfl

def wStockTakeReq : TransactionCreate :=
  { wTakeReq with transaction_type := .stock_take, quantity := some 25 }

/-- C5 witness: counting 25 over a stock of 10 stores 25, and doing it a
second time still stores 25; the batch entry behaves the same. -/
theorem stock_take_spec_witness :
    (qtyOf (create_transaction wStockTakeReq "t5" 8 wDB).2.1 "m1" = some 25 ∧
     qtyOf (create_transaction wStockTakeReq "t6" 9
       (create_transaction wStockTakeReq "t5" 8 wDB).2.1).2.1 "m1" = some 25) ∧
    (qtyOf (apply_stock_take_entry { wEntry with counted_quantity := 25 }
        "u" "U" "t5" 8 wDB).1 "m1" = some 25 ∧
     qtyOf (apply_stock_take_entry { wEntry with counted_quantity := 25 } "u" "U" "t6" 9
        (apply_stock_take_entry { wEntry with counted_quantity := 25 }
          "u" "U" "t5" 8 wDB).1).1 "m1" = some 25) :=
  ⟨(stock_take_spec wStockTakeReq "t5" "t6" 8 9 wDB wMat 25 rfl rfl rfl (by decide)
      (by decide) (by decide)).1,
   (stock_take_spec wStockTakeReq "t5" "t6" 8 9 wDB wMat 25 rfl rfl rfl (by decide)
      (by decide) (by decide)).2 { wEntry with counted_quantity := 25 } "u" "U"
      rfl rfl rfl⟩

/-- After a successful tool transaction the tool is still found, as the
persisted record. -/
theorem findTool_after (req : TransactionCreate) (tid : String) (now : Nat)
    (db : DB) (t t1 : Tool)
    (hfind : findTool db req.item_id = some t)
    (hid : t1.id = t.id) :
    findTool
      { db with
          tools := (updateFirst (fun x => x.id == req.item_id)
            (fun _ => t1) db.tools)
          transactions := db.transactions ++ [mkTransaction req tid now] }
      req.item_id = some t1 := by
  unfold findTool at hfind ⊢
  have hpt : (t.id == req.item_id) = true := by
    simpa using List.find?_some hfind
  have hpt1 : (t1.id == req.item_id) = true := by rw [hid]; exact hpt
  show List.find? (fun x => x.id == req.item_id)
    (updateFirst (fun x => x.id == req.item_id) (fun _ => t1) db.tools) = some t1
  rw [updateFirst_find? (fun x => x.id == req.item_id) (fun _ => t1) db.tools
    (fun x _ => hpt1), hfind]
  rfl

/-- C6: on an existing tool, `check_out` stores status `in_use` and
`current_user` = the requesting user's name; `check_in` stores status
`available`, clears `current_user`, and sets the condition to the supplied
one exactly when one is supplied, otherwise keeps the prior condition. -/
theorem tool_transaction_spec (req : TransactionCreate) (tid : String) (now : Nat)
    (db : DB) (t : Tool)
    (htype : req.item_type = .tool)
    (hfind : findTool db req.item_id = some t) :
    (req.transaction_type = .check_out →
      ∃ t1, findTool (create_transaction req tid now db).2.1 req.item_id = some t1 ∧
        t1.status = .in_use ∧ t1.current_user = some req.user_name) ∧
    (req.transaction_type = .check_in →
      ∃ t1, findTool (create_transaction req tid now db).2.1 req.item_id = some t1 ∧
        t1.status = .available ∧ t1.current_user = none ∧
        t1.condition = req.condition.getD t.condition) := by
  have h : create_transaction req tid now db =
      (.ok (mkTransaction req tid now),
       { db with
          tools := (updateFirst (fun x => x.id == req.item_id)
            (fun _ => { applyToolTxn req t with updated_at := now }) db.tools)
          transactions := db.transactions ++ [mkTransaction req tid now] },
       [.updateTool req.item_id, .insertTransaction tid]) := by
    unfold create_transaction
    simp only [htype, hfind]
  have hid : (applyToolTxn req t).id = t.id := by
    unfold applyToolTxn
    split
    · rfl
    · split <;> rfl
    · rfl
  have hfound := findTool_after req tid now db t
    { applyToolTxn req t with updated_at := now } hfind hid
  constructor
  · intro htt
    refine ⟨{ applyToolTxn req t with updated_at := now }, by rw [h]; exact hfound, ?_, ?_⟩
    · show (applyToolTxn req t).status = .in_use
      unfold applyToolTxn
      rw [htt]
    · show (applyToolTxn req t).current_user = some req.user_name
      unfold applyToolTxn
      rw [htt]
  · intro htt
    refine ⟨{ applyToolTxn req t with updated_at := now }, by rw [h]; exact hfound, ?_, ?_, ?_⟩
    · show (applyToolTxn req t).status = .available
      unfold applyToolTxn
      rw [htt]
      cases req.condition <;> rfl
    · show (applyToolTxn req t).current_user = none
      unfold applyToolTxn
      rw [htt]
      cases req.condition <;> rfl
    · show (applyToolTxn req t).condition = req.condition.getD t.condition
      unfold applyToolTxn
      rw [htt]
      cases req.condition <;> rfl

def wTool : Tool := { id := "tool1", name := "Drill", condition := .good }

def wToolDB : DB := { tools := [wTool] }

def wCheckOutReq : TransactionCreate :=
  { item_id := "tool1", item_type := .tool, transaction_type := .check_out,
    user_id := "lee_paull", user_name := "Lee Paull" }

def wCheckInReq : TransactionCreate :=
  { wCheckOutReq with transaction_type := .check_in, condition := some .fair }

/-- C6 witness: checking out the concrete drill stores `in_use` with the
requester's name; checking it back in with condition `fair` stores
`available`, no holder, condition `fair`. -/
theorem tool_transaction_spec_witness :
    (∃ t1, findTool (create_transaction wCheckOutReq "t7" 3 wToolDB).2.1 "tool1" =
        some t1 ∧ t1.status = .in_use ∧ t1.current_user = some "Lee Paull") ∧
    (∃ t1, findTool (create_transaction wCheckInReq "t8" 4 wToolDB).2.1 "tool1" =
        some t1 ∧ t1.status = .available ∧ t1.current_user = none ∧
        t1.condition = (some ToolCondition.fair).getD wTool.condition) :=
  ⟨(tool_transaction_spec wCheckOutReq "t7" 3 wToolDB wTool rfl (by decide)).1 rfl,
   (tool_transaction_spec wCheckInReq "t8" 4 wToolDB wTool rfl (by decide)).2 rfl⟩

def lowMatN (i : Nat) : Material :=
  { id := toString i, name := some "bulk", quantity := some 0, min_stock := 5 }

def bigLowDB : DB := { materials := (List.range 1001).map lowMatN }

def wNullStockReq : TransactionCreate :=
  { wTakeReq with transaction_type := .stock_take, quantity := none }

set_option maxRecDepth 100000 in
/-- C7 counterexample: the query does not return exactly the set of
materials at or below threshold.  (a) `.to_list(1000)` caps the result:
with 1001 qualifying materials the response holds 1000 and the 1001st —
stored, at threshold — is missing.  (b) a stored null quantity (reachable
through a `stock_take` transaction whose quantity is absent) is selected by
the BSON `$lte` but makes the response's `Material(**doc)` re-validation
raise, so the query fails instead of returning the set. -/
theorem low_stock_counterexample :
    ((bigLowDB.materials.filter (fun m => bsonLe m.quantity m.min_stock)).length = 1001 ∧
     ∃ resp, (get_low_stock_alerts bigLowDB).1 = .ok resp ∧
       resp.materials.length = 1000 ∧
       lowMatN 1000 ∈ bigLowDB.materials ∧
       bsonLe (lowMatN 1000).quantity (lowMatN 1000).min_stock = true ∧
       lowMatN 1000 ∉ resp.materials) ∧
    (qtyOf (create_transaction wNullStockReq "t" 1 wDB).2.1 "m1" = none ∧
     (get_low_stock_alerts (create_transaction wNullStockReq "t" 1 wDB).2.1).1 =
       .error (.pyError "ValidationError")) :=
  ⟨⟨by decide, _, rfl, by decide, by decide, by decide, by decide⟩,
   by decide, rfl⟩

theorem parseMaterials_ok (l : List Material)
    (h : ∀ x ∈ l, x.name.isSome = true ∧ x.quantity.isSome = true) :
    parseMaterials l = .ok l := by
  induction l with
  | nil => rfl
  | cons x xs ih =>
    have hx := h x (List.mem_cons_self x xs)
    have hp : parseMaterial x = .ok x := by
      unfold parseMaterial
      rw [hx.1, hx.2]
      rfl
    unfold parseMaterials
    rw [hp, ih (fun y hy => h y (List.mem_cons_of_mem x hy))]

/-- C7 amended: on a store of at most 1000 materials whose documents are
wellformed (name present, integer quantity), the low-stock query succeeds,
its count matches its list, a material is listed exactly when
`quantity <= min_stock`, and it performs no write and leaves the database
unchanged; beyond 1000 results the cap truncates the set, and a stored null
quantity makes the query raise instead (see the counterexample). -/
theorem low_stock_amended (db : DB) (m : Material) (q : Int)
    (hlen : db.materials.length ≤ 1000)
    (hwf : ∀ x ∈ db.materials, x.name.isSome = true ∧ x.quantity.isSome = true)
    (hm : m ∈ db.materials) (hq : m.quantity = some q) :
    (get_low_stock_alerts db).2.1 = db ∧
    (get_low_stock_alerts db).2.2 = [] ∧
    ∃ resp, (get_low_stock_alerts db).1 = .ok resp ∧
      resp.count = resp.materials.length ∧
      (m ∈ resp.materials ↔ q ≤ m.min_stock) := by
  have htake : (db.materials.filter (fun x => bsonLe x.quantity x.min_stock)).take 1000 =
      db.materials.filter (fun x => bsonLe x.quantity x.min_stock) :=
    List.take_of_length_le ((List.length_filter_le _ _).trans hlen)
  have hparse : parseMaterials
      ((db.materials.filter (fun x => bsonLe x.quantity x.min_stock)).take 1000) =
      .ok (db.materials.filter (fun x => bsonLe x.quantity x.min_stock)) := by
    rw [htake]
    exact parseMaterials_ok _ (fun y hy => hwf y (List.mem_of_mem_filter hy))
  have h : get_low_stock_alerts db =
      (.ok { count :=
               ((db.materials.filter (fun x => bsonLe x.quantity x.min_stock)).take 1000).length
             materials := db.materials.filter (fun x => bsonLe x.quantity x.min_stock) },
       db, []) := by
    unfold get_low_stock_alerts
    simp only [hparse]
  rw [h]
  refine ⟨rfl, rfl, _, rfl, ?_, ?_⟩
  · show ((db.materials.filter (fun x => bsonLe x.quantity x.min_stock)).take 1000).length =
      (db.materials.filter (fun x => bsonLe x.quantity x.min_stock)).length
    rw [htake]
  · rw [List.mem_filter]
    simp [bsonLe, hq, hm]

def wLowMat : Material :=
  { id := "a", name := some "Screws", quantity := some 3, min_stock := 5 }

def wHighMat : Material :=
  { id := "b", name := some "Nails", quantity := some 9, min_stock := 5 }

def wLowDB : DB := { materials := [wLowMat, wHighMat] }

/-- C7 amended witness: on a concrete two-material store the query succeeds
read-only and alerts the material holding 3 exactly because `3 <= 5`. -/
theorem low_stock_amended_witness :
    (get_low_stock_alerts wLowDB).2.1 = wLowDB ∧
    (get_low_stock_alerts wLowDB).2.2 = [] ∧
    ∃ resp, (get_low_stock_alerts wLowDB).1 = .ok resp ∧
      resp.count = resp.materials.length ∧
      (wLowMat ∈ resp.materials ↔ (3 : Int) ≤ wLowMat.min_stock) :=
  low_stock_amended wLowDB wLowMat 3 (by decide) (by decide) (by decide) (by decide)

theorem updateFirst_mem {α : Type} (p : α → Bool) (f : α → α) (xs : List α) (y : α)
    (hy : y ∈ updateFirst p f xs) : y ∈ xs ∨ ∃ x, x ∈ xs ∧ y = f x := by
  induction xs with
  | nil => simp [updateFirst] at hy
  | cons x xs ih =>
    rw [updateFirst] at hy
    by_cases h : p x = true
    · rw [if_pos h] at hy
      rcases List.mem_cons.mp hy with h1 | h1
      · exact .inr ⟨x, List.mem_cons_self x xs, h1⟩
      · exact .inl (List.mem_cons_of_mem x h1)
    · rw [if_neg h] at hy
      rcases List.mem_cons.mp hy with h1 | h1
      · exact .inl (h1 ▸ List.mem_cons_self x xs)
      · rcases ih h1 with h2 | ⟨x1, hx1, hfx⟩
        · exact .inl (List.mem_cons_of_mem x h2)
        · exact .inr ⟨x1, List.mem_cons_of_mem x hx1, hfx⟩

/-- A confirmed item processed against a store whose materials all carry an
integer quantity succeeds, keeps that wellformedness, and never touches the
deliveries collection. -/
theorem processConfirmedItem_ok (sid sname nid : String) (now : Nat)
    (item : ConfirmedItem) (db0 : DB)
    (hwf : ∀ m ∈ db0.materials, m.quantity.isSome = true) :
    ∃ db1 ws n, processConfirmedItem sid sname nid now item db0 = .ok (db1, ws, n) ∧
      (∀ m ∈ db1.materials, m.quantity.isSome = true) ∧
      db1.deliveries = db0.deliveries := by
  unfold processConfirmedItem
  split
  · exact ⟨db0, [], 0, rfl, hwf, rfl⟩
  · split
    · split
      · refine ⟨_, _, _, rfl, ?_, rfl⟩
        intro m hm
        rcases List.mem_append.mp hm with h | h
        · exact hwf m h
        · rw [List.mem_singleton.mp h]
          rfl
      · exact ⟨db0, [], 0, rfl, hwf, rfl⟩
    · split
      · split
        · exact ⟨db0, [], 0, rfl, hwf, rfl⟩
        · rename_i mdoc hfindm
          split
          · rename_i hnone
            have hmem : mdoc ∈ db0.materials := List.mem_of_find?_eq_some hfindm
            have hs := hwf mdoc hmem
            rw [hnone] at hs
            cases hs
          · rename_i mq hsome
            refine ⟨_, _, _, rfl, ?_, rfl⟩
            intro m hm
            rcases updateFirst_mem _ _ _ m hm with h | ⟨x, hx, hfx⟩
            · exact hwf m h
            · rw [hfx]
              rfl
      · exact ⟨db0, [], 0, rfl, hwf, rfl⟩

theorem processConfirmedItems_ok (sid sname : String) (newIds : List String)
    (now : Nat) (items : List ConfirmedItem) : ∀ (i : Nat) (db0 : DB),
    (∀ m ∈ db0.materials, m.quantity.isSome = true) →
    ∃ db1 ws n,
      processConfirmedItems sid sname newIds now items i db0 = (.ok (), db1, ws, n) ∧
      (∀ m ∈ db1.materials, m.quantity.isSome = true) ∧
      db1.deliveries = db0.deliveries := by
  induction items with
  | nil =>
    intro i db0 hwf
    exact ⟨db0, [], 0, rfl, hwf, rfl⟩
  | cons item rest ih =>
    intro i db0 hwf
    obtain ⟨dbm, wsm, nm, hstep, hwfm, hdelm⟩ :=
      processConfirmedItem_ok sid sname (newIds.getD i "") now item db0 hwf
    obtain ⟨db1, ws1, n1, hrest, hwf1, hdel1⟩ := ih (i + 1) dbm hwfm
    refine ⟨db1, wsm ++ ws1, nm + n1, ?_, hwf1, hdel1.trans hdelm⟩
    unfold processConfirmedItems
    simp only [hstep]
    rw [hrest]

theorem findDelivery_updateFirst (ds : List Delivery) (id : String) (d : Delivery)
    (f : Delivery → Delivery) (hfind : ds.find? (fun x => x.id == id) = some d)
    (hf : ∀ x, (f x).id = x.id) :
    (updateFirst (fun x => x.id == id) f ds).find? (fun x => x.id == id) =
      some (f d) := by
  rw [updateFirst_find? (fun x => x.id == id) f ds (fun x hx => by
    show ((f x).id == id) = true
    rw [hf x]
    exact hx), hfind]
  rfl

/-- C8: on a store whose materials are wellformed, delivery confirmation
always succeeds — with no hypothesis on the confirmed items, in particular
when their received quantities sum to less than `total_items_expected` —
transitioning the Delivery to `completed` and stamping
`actual_delivery_date`; and an item with `quantity_received <= 0` is skipped
outright: it changes nothing, writes nothing, and updates no material. -/
theorem confirm_delivery_spec (delivery_id : String) (cd : ConfirmationData)
    (newIds : List String) (now : Nat) (db : DB) (d : Delivery)
    (hfind : findDelivery db delivery_id = some d)
    (hwf : ∀ m ∈ db.materials, m.quantity.isSome = true) :
    (∃ resp, (confirm_delivery_and_update_inventory delivery_id cd newIds now db).1 =
      .ok resp) ∧
    (∃ d1, findDelivery
        (confirm_delivery_and_update_inventory delivery_id cd newIds now db).2.1
        delivery_id = some d1 ∧
      d1.status = .completed ∧ d1.actual_delivery_date = some now) ∧
    (∀ (sid sname nid : String) (nw : Nat) (item : ConfirmedItem) (db0 : DB),
      item.quantity_received ≤ 0 →
      processConfirmedItem sid sname nid nw item db0 = .ok (db0, [], 0)) := by
  obtain ⟨db1, ws1, n1, hrun, hwf1, hdel⟩ :=
    processConfirmedItems_ok d.supplier_id d.supplier_name newIds now
      cd.confirmed_items 0 db hwf
  have hfind1 : db1.deliveries.find? (fun x => x.id == delivery_id) = some d := by
    rw [hdel]
    exact hfind
  refine ⟨?_, ?_, ?_⟩
  · unfold confirm_delivery_and_update_inventory
    simp only [hfind, hrun]
    exact ⟨_, rfl⟩
  · unfold confirm_delivery_and_update_inventory
    simp only [hfind, hrun]
    exact ⟨_,
      findDelivery_updateFirst db1.deliveries delivery_id d _ hfind1 (fun x => rfl),
      rfl, rfl⟩
  · intro sid sname nid nw item db0 h0
    unfold processConfirmedItem
    rw [if_pos h0]

def wDeliv : Delivery :=
  { id := "d1", supplier_id := "s1", supplier_name := "Acme", total_items_expected := 10 }

def wConfDB : DB := { materials := [wMat], deliveries := [wDeliv] }

def wSkippedItem : ConfirmedItem := { item_name := some "Void", quantity_received := 0 }

def wConf : ConfirmationData :=
  { confirmed_items :=
      [{ item_name := some "Widget", quantity_received := 2,
         matched_inventory_id := some "m1" },
       wSkippedItem] }

/-- C8 witness: a concrete confirmation receiving 2 of the 10 expected items
(one entry skipped for `quantity_received = 0`) still succeeds, completes the
delivery and stamps its date; the skipped entry changes nothing. -/
theorem confirm_delivery_spec_witness :
    (∃ resp, (confirm_delivery_and_update_inventory "d1" wConf ["n1"] 7 wConfDB).1 =
      .ok resp) ∧
    (∃ d1, findDelivery
        (confirm_delivery_and_update_inventory "d1" wConf ["n1"] 7 wConfDB).2.1
        "d1" = some d1 ∧
      d1.status = .completed ∧ d1.actual_delivery_date = some 7) ∧
    processConfirmedItem "s1" "Acme" "n1" 7 wSkippedItem wConfDB = .ok (wConfDB, [], 0) :=
  ⟨(confirm_delivery_spec "d1" wConf ["n1"] 7 wConfDB wDeliv (by decide) (by decide)).1,
   (confirm_delivery_spec "d1" wConf ["n1"] 7 wConfDB wDeliv (by decide) (by decide)).2.1,
   (confirm_delivery_spec "d1" wConf ["n1"] 7 wConfDB wDeliv (by decide) (by decide)).2.2
     "s1" "Acme" "n1" 7 wSkippedItem wConfDB (by decide)⟩

def wSup : Supplier :=
  { id := "s1", name := "Acme", type := "electrical", website := some "http://acme.example" }

def wSupDB : DB := { suppliers := [wSup] }

/-- C9 counterexample: with the API key missing the scan raises the 500
`HTTPException` — which the handler's `except HTTPException` arm re-raises —
so nothing at all is stored, not the five fallback records the claim
promises; and on a successful model call returning only two products the
handler stores those two, not five. -/
theorem supplier_scan_counterexample :
    (scan_supplier_products "s1" none none .callFailed 3 wSupDB =
      (.error (.http 500 "LLM API key not configured"), wSupDB, [])) ∧
    ((scan_supplier_products "s1" none (some "k")
        (.parsed [{ name := some "A" }, { name := some "B" }]) 3 wSupDB).2.1.suppliers.map
      (fun s => s.products.length) = [2]) := ⟨rfl, rfl⟩

/-- C9 amended: for an existing supplier with a usable website and a present
API key, the scan always succeeds and replaces the supplier's product list
wholesale with a list that depends only on the model-call outcome: the five
deterministic templated fallback products when the call failed or its answer
was malformed, and the first `min 5 n` of the `n` parsed products on
success.  A missing API key instead fails with an error before any write
(see the counterexample). -/
theorem supplier_scan_amended (sid : String) (scan_website api_key : Option String)
    (outcome : LlmOutcome) (now : Nat) (db : DB) (sup : Supplier)
    (hfind : findSupplier db sid = some sup)
    (hweb : pyTruthyStr (match scan_website with
      | some w => some w
      | none => sup.website) = true)
    (hkey : pyTruthyStr api_key = true) :
    (∃ resp, (scan_supplier_products sid scan_website api_key outcome now db).1 =
      .ok resp) ∧
    (scan_supplier_products sid scan_website api_key outcome now db).2.2 =
      [.updateSupplier sid] ∧
    (∃ s1, findSupplier
        (scan_supplier_products sid scan_website api_key outcome now db).2.1 sid =
        some s1 ∧
      s1.products = scannedProducts sup sid outcome ∧
      ((outcome = .callFailed ∨ outcome = .malformedJson) →
        s1.products = fallbackProducts sup sid ∧ s1.products.length = 5) ∧
      (∀ ps, outcome = .parsed ps → s1.products.length = min 5 ps.length)) := by
  have h : scan_supplier_products sid scan_website api_key outcome now db =
      (.ok { supplier_id := sid
             products_found := (scannedProducts sup sid outcome).length
             products := scannedProducts sup sid outcome },
       { db with suppliers :=
          (updateFirst (fun s => s.id == sid)
            (fun s => { s with
              products := scannedProducts sup sid outcome
              updated_at := now })
            db.suppliers) },
       [.updateSupplier sid]) := by
    unfold scan_supplier_products
    simp only [hfind, hweb, hkey, Bool.not_true, Bool.false_eq_true, if_false]
  rw [h]
  refine ⟨⟨_, rfl⟩, rfl, ?_⟩
  refine ⟨{ sup with
      products := scannedProducts sup sid outcome
      updated_at := now }, ?_, ?_, ?_, ?_⟩
  · show (updateFirst (fun s => s.id == sid) _ db.suppliers).find?
      (fun s => s.id == sid) = some _
    unfold findSupplier at hfind
    rw [updateFirst_find? (fun s => s.id == sid)
      (fun s => { s with
        products := scannedProducts sup sid outcome
        updated_at := now })
      db.suppliers (fun x hx => hx), hfind]
    rfl
  · rfl
  · rintro (rfl | rfl) <;> exact ⟨rfl, rfl⟩
  · rintro ps rfl
    show ((ps.take 5).mapIdx (fun i p => enhanceProduct sup.name sid i p)).length =
      min 5 ps.length
    rw [List.length_mapIdx, List.length_take]

/-- C9 amended witness: on the concrete supplier, a failed model call stores
exactly the five templated fallback products by wholesale replacement. -/
theorem supplier_scan_amended_witness :
    (∃ resp, (scan_supplier_products "s1" none (some "k") .callFailed 3 wSupDB).1 =
      .ok resp) ∧
    (scan_supplier_products "s1" none (some "k") .callFailed 3 wSupDB).2.2 =
      [.updateSupplier "s1"] ∧
    (∃ s1, findSupplier
        (scan_supplier_products "s1" none (some "k") .callFailed 3 wSupDB).2.1 "s1" =
        some s1 ∧
      s1.products = scannedProducts wSup "s1" .callFailed ∧
      ((LlmOutcome.callFailed = LlmOutcome.callFailed ∨
          LlmOutcome.callFailed = LlmOutcome.malformedJson) →
        s1.products = fallbackProducts wSup "s1" ∧ s1.products.length = 5) ∧
      (∀ ps, LlmOutcome.callFailed = LlmOutcome.parsed ps →
        s1.products.length = min 5 ps.length)) :=
  supplier_scan_amended "s1" none (some "k") .callFailed 3 wSupDB wSup (by decide)
    (by decide) (by decide)

/-- C10: a material `take` or `restock` whose optional quantity field is
absent fails with the unhandled Python `TypeError` (from comparing or adding
an integer and `None`) — not with any of the typed errors (`.http` 404/400)
— and the database is returned unchanged: the stored quantity is untouched
and no Transaction record is written. -/
theorem none_quantity_type_error (req : TransactionCreate) (tid : String)
    (now : Nat) (db : DB) (m : Material)
    (htype : req.item_type = .material)
    (htt : req.transaction_type = .take ∨ req.transaction_type = .restock)
    (hq : req.quantity = none)
    (hfind : findMaterial db req.item_id = some m)
    (hname : m.name.isSome = true) (hqsome : m.quantity.isSome = true) :
    create_transaction req tid now db = (.error (.pyError "TypeError"), db, []) := by
  have hparse : parseMaterial m = .ok m := by
    unfold parseMaterial
    rw [hname, hqsome]
    rfl
  obtain ⟨mq, hmq⟩ := Option.isSome_iff_exists.mp hqsome
  have happly : applyMaterialTxn req m = .error (.pyError "TypeError") := by
    rcases htt with h | h <;> unfold applyMaterialTxn <;> rw [h, hmq, hq]
  unfold create_transaction
  simp only [htype, hfind, hparse, happly]

/-- C10 witness: a concrete take and a concrete restock with no quantity
both raise `TypeError` and leave the store untouched. -/
theorem none_quantity_type_error_witness :
    (create_transaction { wTakeReq with quantity := none } "t1" 5 wDB =
      (.error (.pyError "TypeError"), wDB, [])) ∧
    (create_transaction { wTakeReq with transaction_type := .restock, quantity := none }
        "t1" 5 wDB = (.error (.pyError "TypeError"), wDB, [])) :=
  ⟨none_quantity_type_error { wTakeReq with quantity := none } "t1" 5 wDB wMat rfl
      (.inl rfl) rfl (by decide) (by decide) (by decide),
   none_quantity_type_error
      { wTakeReq with transaction_type := .restock, quantity := none } "t1" 5 wDB wMat
      rfl (.inr rfl) rfl (by decide) (by decide) (by decide)⟩

end Inventory
